import Mathlib

/-!
# ArtNetController: a shallow embedding of `src/artnet_controller.cpp`

The controller is a thin wrapper around the external libartnet library.  The
embedding is of the networking build (`ARTNET_WASM_STUB` undefined, the `#else`
branches).  The library is not part of the repository: every call the wrapper
makes is recorded in a call trace, and every value the library hands back is a
parameter of the operation that consumes it.  The diagnostics the wrapper prints
(`print_error`, `push_warning`) are recorded in a second trace; the text that
`artnet_strerror()` contributes to a message is left out.

C `int` arguments are `Int`; `static_cast<uint8_t>` and `static_cast<int16_t>`
are explicit reductions modulo `2^8` and `2^16`.
-/

set_option linter.unusedVariables false

/-- The handle `artnet_node` is a pointer: `none` is `nullptr`, `some a` the node at address `a`. -/
abbrev artnet_node := Option Nat

/-- Port directions of libartnet (`artnet_port_dir_t`); the wrapper only uses the output one. -/
inductive artnet_port_dir_t
  | ARTNET_INPUT_PORT
  | ARTNET_OUTPUT_PORT
  deriving DecidableEq, Repr

/-- One call into libartnet, with the arguments the wrapper passes. -/
inductive LibCall
  | artnet_new (ip : String) (verbose : Int)
  | artnet_destroy (n : Nat)
  | artnet_set_subnet_addr (n : Nat) (subnet : Nat)
  | artnet_set_port_addr (n : Nat) (id : Int) (dir : artnet_port_dir_t) (addr : Nat)
  | artnet_start (n : Nat)
  | artnet_stop (n : Nat)
  | artnet_send_dmx (n : Nat) (port_id : Int) (length : Int) (data : List Nat)
  deriving DecidableEq, Repr

/-- One diagnostic printed by the wrapper, named after the message it carries. -/
inductive Diag
  | failed_to_create_node
  | failed_to_set_subnet_address
  | failed_to_set_port_address
  | cannot_start_not_configured
  | already_running
  | failed_to_start
  | data_exceeds_512 (got : Nat)
  | data_is_empty
  | cannot_send_not_configured
  | cannot_send_not_started
  | no_data_to_send
  | failed_to_send
  deriving DecidableEq, Repr

/-- The private fields of `class ArtNetController`; `dmx_data` is the `PackedByteArray`. -/
structure ArtNetController where
  node : artnet_node
  running : Bool
  current_universe : Nat
  dmx_data : List Nat
  deriving DecidableEq, Repr

/-- What one operation yields: the returned value, the controller afterwards, the library
calls made (in order) and the diagnostics printed (in order). -/
structure Ret (α : Type) where
  value : α
  state : ArtNetController
  calls : List LibCall
  log : List Diag
  deriving DecidableEq, Repr

/-- What libartnet hands back during one `configure`: the node from `artnet_new` and the
status codes of the two address setters (0 is success). -/
structure ConfigureLib where
  new_node : artnet_node
  set_subnet_addr : Int
  set_port_addr : Int
  deriving DecidableEq, Repr

/-- The conversion `static_cast<uint8_t>(x)`. -/
def to_uint8 (x : Int) : Nat := (x % 256).toNat

/-- The conversion `static_cast<int16_t>(x)`. -/
def to_int16 (x : Int) : Int :=
  if x % 65536 < 32768 then x % 65536 else x % 65536 - 65536

/-- The expression `x & 0x0F` on a two's-complement `int`: the low four bits of `x`. -/
def and_0x0F (x : Int) : Int := x % 16

namespace ArtNetController

/-- The constructor `ArtNetController::ArtNetController()`. -/
def construct : ArtNetController :=
  { node := none, running := false, current_universe := 0, dmx_data := [] }

/-- The method `ArtNetController::stop`; the status of `artnet_stop` is discarded. -/
def stop (self : ArtNetController) : Ret Unit :=
  match self.node with
  | none => ⟨(), self, [], []⟩
  | some n =>
    if !self.running then ⟨(), self, [], []⟩
    else ⟨(), { self with running := false }, [LibCall.artnet_stop n], []⟩

/-- The method `ArtNetController::is_running`. -/
def is_running (self : ArtNetController) : Bool :=
  self.running && (self.node != none)

/-- The method `ArtNetController::start`; `start_result` is what `artnet_start` returns
if it is called. -/
def start (self : ArtNetController) (start_result : Int) : Ret Bool :=
  match self.node with
  | none => ⟨false, self, [], [Diag.cannot_start_not_configured]⟩
  | some n =>
    if self.running then ⟨true, self, [], [Diag.already_running]⟩
    else if start_result ≠ 0 then
      ⟨false, self, [LibCall.artnet_start n], [Diag.failed_to_start]⟩
    else ⟨true, { self with running := true }, [LibCall.artnet_start n], []⟩

/-- The first block of `configure`: stop and destroy the existing node, if any. -/
def cleanup_existing (self : ArtNetController) : ArtNetController × List LibCall :=
  match self.node with
  | none => (self, [])
  | some n =>
    let r := stop self
    ({ r.state with node := none }, r.calls ++ [LibCall.artnet_destroy n])

/-- The method `ArtNetController::configure`; `lib` holds what the library returns to the
calls that are reached. -/
def configure (self : ArtNetController) (bind_address : String) (port net subnet universe_ : Int)
    (broadcast_address : String) (lib : ConfigureLib) : Ret Bool :=
  let c := cleanup_existing self
  let s1 := c.1
  let calls1 := c.2 ++ [LibCall.artnet_new bind_address 0]
  match lib.new_node with
  | none => ⟨false, { s1 with node := none }, calls1, [Diag.failed_to_create_node]⟩
  | some m =>
    let calls2 := calls1 ++ [LibCall.artnet_set_subnet_addr m (to_uint8 subnet)]
    if lib.set_subnet_addr ≠ 0 then
      ⟨false, { s1 with node := none }, calls2 ++ [LibCall.artnet_destroy m],
        [Diag.failed_to_set_subnet_address]⟩
    else
      let port_addr := to_uint8 (and_0x0F universe_)
      let calls3 := calls2 ++
        [LibCall.artnet_set_port_addr m 0 artnet_port_dir_t.ARTNET_OUTPUT_PORT port_addr]
      if lib.set_port_addr ≠ 0 then
        ⟨false, { s1 with node := none }, calls3 ++ [LibCall.artnet_destroy m],
          [Diag.failed_to_set_port_address]⟩
      else
        ⟨true, { s1 with node := some m, current_universe := to_uint8 universe_,
                         running := false }, calls3, []⟩

/-- The method `ArtNetController::set_dmx_data`. -/
def set_dmx_data (self : ArtNetController) (universe_ : Int) (data : List Nat) : Ret Bool :=
  if data.length > 512 then ⟨false, self, [], [Diag.data_exceeds_512 data.length]⟩
  else if data.length = 0 then ⟨false, self, [], [Diag.data_is_empty]⟩
  else ⟨true, { self with dmx_data := data, current_universe := to_uint8 universe_ }, [], []⟩

/-- The method `ArtNetController::send_dmx`; `send_result` is what `artnet_send_dmx` returns
if it is called.  The pointer `data_ptr` designates the stored buffer. -/
def send_dmx (self : ArtNetController) (send_result : Int) : Ret Bool :=
  match self.node with
  | none => ⟨false, self, [], [Diag.cannot_send_not_configured]⟩
  | some n =>
    if !self.running then ⟨false, self, [], [Diag.cannot_send_not_started]⟩
    else if self.dmx_data.length = 0 then ⟨false, self, [], [Diag.no_data_to_send]⟩
    else
      let length := to_int16 self.dmx_data.length
      let calls := [LibCall.artnet_send_dmx n 0 length self.dmx_data]
      if send_result ≠ 0 then ⟨false, self, calls, [Diag.failed_to_send]⟩
      else ⟨true, self, calls, []⟩

end ArtNetController

/-- One public operation of the controller together with the library outcomes it consumes. -/
inductive Op
  | configure (bind_address : String) (port net subnet universe_ : Int)
      (broadcast_address : String) (lib : ConfigureLib)
  | start (start_result : Int)
  | stop
  | set_dmx_data (universe_ : Int) (data : List Nat)
  | send_dmx (send_result : Int)

/-- The controller after one operation. -/
def Op.apply (self : ArtNetController) : Op → ArtNetController
  | Op.configure b p n s u bc lib => (ArtNetController.configure self b p n s u bc lib).state
  | Op.start r => (ArtNetController.start self r).state
  | Op.stop => (ArtNetController.stop self).state
  | Op.set_dmx_data u d => (ArtNetController.set_dmx_data self u d).state
  | Op.send_dmx r => (ArtNetController.send_dmx self r).state

/-- The controller after a sequence of operations, applied from left to right. -/
def run (self : ArtNetController) (ops : List Op) : ArtNetController :=
  ops.foldl Op.apply self

/-- The frame as section 4.3 of the specification wants it on the wire: one trailing zero
byte is appended when the length is odd. -/
def spec_padded (data : List Nat) : List Nat :=
  if data.length % 2 = 1 then data ++ [0] else data

/-- The combined port address of the specification, `(subnet<<4)|universePort`. -/
def spec_port_address (subnet universePort : Nat) : Nat :=
  (subnet <<< 4) ||| universePort

/-- The subnet handed to `artnet_set_subnet_addr` in a call trace, if that call was made. -/
def subnet_handed : List LibCall → Option Nat
  | [] => none
  | LibCall.artnet_set_subnet_addr _ s :: _ => some s
  | _ :: rest => subnet_handed rest

/-- The port address handed to `artnet_set_port_addr` in a call trace, if that call was made. -/
def port_addr_handed : List LibCall → Option Nat
  | [] => none
  | LibCall.artnet_set_port_addr _ _ _ a :: _ => some a
  | _ :: rest => port_addr_handed rest

namespace ArtNetController

/-! ## Sanity checks of the embedding on concrete inputs -/

example : to_uint8 (-1) = 255 := by decide
example : to_uint8 18 = 18 := by decide
example : to_int16 512 = 512 := by decide
example : to_int16 40000 = -25536 := by decide
example : and_0x0F 18 = 2 := by decide
example : and_0x0F (-1) = 15 := by decide

/-- The scenario of the specification's example, run on the embedding: the library receives
the three bytes with length 3. -/
example :
    (send_dmx (start (set_dmx_data (configure construct "0.0.0.0" 6454 0 1 2 "10.0.0.255"
      ⟨some 1, 0, 0⟩).state 18 [255, 0, 128]).state 0).state 0).calls =
      [LibCall.artnet_send_dmx 1 0 3 [255, 0, 128]] := by
  decide

/-! ## The mask `& 0x0F` is the two's-complement bitwise and -/

/-- Clearing in 15 the bits of `m` leaves `15 - m % 16`. -/
lemma ldiff_fifteen (m : Nat) : Nat.ldiff 15 m = 15 - m % 16 := by
  have hx : 15 - m % 16 = 15 ^^^ (m &&& 15) := by
    have h := Nat.and_pow_two_sub_one_eq_mod m 4
    norm_num at h
    rw [h]
    have hlt : m % 16 < 16 := Nat.mod_lt _ (by norm_num)
    generalize m % 16 = r at hlt
    interval_cases r <;> rfl
  rw [hx]
  apply Nat.eq_of_testBit_eq
  intro i
  rw [Nat.testBit_ldiff, Nat.testBit_xor, Nat.testBit_and]
  cases Nat.testBit 15 i <;> cases Nat.testBit m i <;> rfl

/-- The model of `x & 0x0F` agrees with the two's-complement bitwise and of `x` with 15 on
every integer, negative ones included. -/
lemma and_0x0F_eq_land (x : Int) : and_0x0F x = Int.land x 15 := by
  unfold and_0x0F
  cases x with
  | ofNat n =>
    have h := Nat.and_pow_two_sub_one_eq_mod n 4
    norm_num at h
    show (n : Int) % 16 = ((Nat.land n 15 : Nat) : Int)
    have hland : Nat.land n 15 = n % 16 := h
    rw [hland]
    norm_cast
  | negSucc m =>
    show Int.negSucc m % 16 = ((Nat.ldiff 15 m : Nat) : Int)
    rw [ldiff_fifteen]
    have hlt : m % 16 < 16 := Nat.mod_lt _ (by norm_num)
    rw [Int.negSucc_eq]
    omega

end ArtNetController

namespace ArtNetController

/-! ## Shared lemmas -/

/-- After `stop` the controller has no node or its running flag is clear. -/
lemma stop_state_idle (s : ArtNetController) :
    (stop s).state.node = none ∨ (stop s).state.running = false := by
  unfold stop
  cases hn : s.node with
  | none => simp [hn]
  | some n =>
    cases hr : s.running with
    | false => simp [hr]
    | true => simp

/-- On a controller with no node or a clear running flag `stop` does nothing at all. -/
lemma stop_of_idle (s : ArtNetController) (h : s.node = none ∨ s.running = false) :
    stop s = ⟨(), s, [], []⟩ := by
  unfold stop
  cases hn : s.node with
  | none => rfl
  | some n =>
    rcases h with h | h
    · simp [hn] at h
    · simp [h]

/-- On a controller with no node or a clear running flag `send_dmx` fails before the library
is reached. -/
lemma send_dmx_of_idle (s : ArtNetController) (r : Int)
    (h : s.node = none ∨ s.running = false) :
    (send_dmx s r).value = false ∧ (send_dmx s r).state = s ∧ (send_dmx s r).calls = [] := by
  unfold send_dmx
  cases hn : s.node with
  | none => simp
  | some n =>
    rcases h with h | h
    · simp [hn] at h
    · simp [h]

/-! ## C1: frames of length 0 or above 512 are rejected -/

/-- C1: for every controller state and every universe argument, `set_dmx_data` called with a
byte array of length 0 or of length greater than 512 returns false, and the whole state (the
stored frame included) is the one before the call; no library call is made. -/
theorem set_dmx_data_rejects_bad_length (s : ArtNetController) (universe_ : Int)
    (data : List Nat) (h : data.length = 0 ∨ data.length > 512) :
    (set_dmx_data s universe_ data).value = false ∧
    (set_dmx_data s universe_ data).state = s ∧
    (set_dmx_data s universe_ data).state.dmx_data = s.dmx_data ∧
    (set_dmx_data s universe_ data).calls = [] := by
  unfold set_dmx_data
  rcases h with h | h
  · simp [h]
  · simp [h]

/-- C1 at concrete inputs: an empty array offered to a controller holding the frame
`[7, 8, 9]` is refused and the frame stays. -/
theorem set_dmx_data_rejects_bad_length_witness :
    (([] : List Nat).length = 0 ∨ ([] : List Nat).length > 512) ∧
    (set_dmx_data ⟨some 1, true, 18, [7, 8, 9]⟩ 5 []).value = false ∧
    (set_dmx_data ⟨some 1, true, 18, [7, 8, 9]⟩ 5 []).state = ⟨some 1, true, 18, [7, 8, 9]⟩ ∧
    (set_dmx_data ⟨some 1, true, 18, [7, 8, 9]⟩ 5 []).state.dmx_data = [7, 8, 9] ∧
    (set_dmx_data ⟨some 1, true, 18, [7, 8, 9]⟩ 5 []).calls = [] :=
  ⟨Or.inl rfl, set_dmx_data_rejects_bad_length ⟨some 1, true, 18, [7, 8, 9]⟩ 5 [] (Or.inl rfl)⟩

/-! ## C5: `send_dmx` without a node or while not running -/

/-- C5: for every controller state in which no node is configured or the controller is not
running, and for every state reached by `stop`, `send_dmx` returns false, makes no library call
(so none to the send operation) and leaves the state unchanged; the diagnostic is the
not-configured one when no node is held and the not-started one otherwise. -/
theorem send_dmx_fails_when_idle (s : ArtNetController) (send_result : Int)
    (h : s.node = none ∨ s.running = false ∨ ∃ s0, s = (stop s0).state) :
    (send_dmx s send_result).value = false ∧
    (send_dmx s send_result).calls = [] ∧
    (send_dmx s send_result).state = s ∧
    (send_dmx s send_result).log =
      [if s.node = none then Diag.cannot_send_not_configured
       else Diag.cannot_send_not_started] := by
  have hidle : s.node = none ∨ s.running = false := by
    rcases h with h | h | ⟨s0, h⟩
    · exact Or.inl h
    · exact Or.inr h
    · rw [h]; exact stop_state_idle s0
  obtain ⟨h1, h2, h3⟩ := send_dmx_of_idle s send_result hidle
  refine ⟨h1, h3, h2, ?_⟩
  unfold send_dmx
  cases hn : s.node with
  | none => simp
  | some n =>
    rcases hidle with h | h
    · simp [hn] at h
    · simp [h]

/-- C5 at a concrete input: a configured controller that was never started and holds a frame. -/
theorem send_dmx_fails_when_idle_witness :
    (send_dmx ⟨some 1, false, 18, [255, 0, 128]⟩ 0).value = false ∧
    (send_dmx ⟨some 1, false, 18, [255, 0, 128]⟩ 0).calls = [] ∧
    (send_dmx ⟨some 1, false, 18, [255, 0, 128]⟩ 0).state = ⟨some 1, false, 18, [255, 0, 128]⟩ ∧
    (send_dmx ⟨some 1, false, 18, [255, 0, 128]⟩ 0).log = [Diag.cannot_send_not_started] :=
  send_dmx_fails_when_idle ⟨some 1, false, 18, [255, 0, 128]⟩ 0 (Or.inr (Or.inl rfl))

/-! ## C6: `stop` is idempotent -/

/-- C6: for every controller state, `is_running()` is false after `stop`, and a second `stop`
right after the first makes no library call and leaves the state exactly as the first left it,
so `is_running()` is false both times. -/
theorem stop_idempotent (s : ArtNetController) :
    is_running (stop s).state = false ∧
    (stop (stop s).state).calls = [] ∧
    (stop (stop s).state).state = (stop s).state ∧
    is_running (stop (stop s).state).state = false := by
  have hidle := stop_state_idle s
  have h2 := stop_of_idle (stop s).state hidle
  have hrun : is_running (stop s).state = false := by
    unfold is_running
    rcases hidle with h | h
    · simp [h]
    · simp [h]
  rw [h2]
  exact ⟨hrun, rfl, rfl, hrun⟩

/-! ## C7: `start` on a running controller -/

/-- C7: for every state in which the controller is configured and running, `start` returns
true, makes no library call (so none to the start operation) and leaves every field of the
state unchanged; it only prints the already-running warning. -/
theorem start_when_running (s : ArtNetController) (start_result : Int)
    (hnode : s.node ≠ none) (hrun : s.running = true) :
    (start s start_result).value = true ∧
    (start s start_result).calls = [] ∧
    (start s start_result).state = s ∧
    (start s start_result).log = [Diag.already_running] := by
  unfold start
  cases hn : s.node with
  | none => exact absurd hn hnode
  | some n => simp [hrun]

/-- C7 at a concrete input: a running controller, with a library that would refuse to start. -/
theorem start_when_running_witness :
    (start ⟨some 4, true, 18, [1, 2]⟩ (-1)).value = true ∧
    (start ⟨some 4, true, 18, [1, 2]⟩ (-1)).calls = [] ∧
    (start ⟨some 4, true, 18, [1, 2]⟩ (-1)).state = ⟨some 4, true, 18, [1, 2]⟩ ∧
    (start ⟨some 4, true, 18, [1, 2]⟩ (-1)).log = [Diag.already_running] :=
  start_when_running ⟨some 4, true, 18, [1, 2]⟩ (-1) (by decide) rfl

end ArtNetController

namespace ArtNetController

/-! ## More shared lemmas -/

/-- A buffer length below `2^15` survives `static_cast<int16_t>` unchanged. -/
lemma to_int16_of_lt (k : Nat) (h : k < 32768) : to_int16 (k : Int) = (k : Int) := by
  unfold to_int16
  have hmod : (k : Int) % 65536 = (k : Int) := Int.emod_eq_of_lt (by omega) (by omega)
  rw [hmod]
  have hlt : (k : Int) < 32768 := by omega
  simp [hlt]

/-- A value in `0..255` survives `static_cast<uint8_t>` unchanged. -/
lemma to_uint8_of_range (x : Int) (h0 : 0 ≤ x) (h1 : x ≤ 255) : to_uint8 x = x.toNat := by
  unfold to_uint8
  rw [Int.emod_eq_of_lt h0 (by omega)]

/-- A value in `0..15` survives `& 0x0F` unchanged. -/
lemma and_0x0F_of_range (x : Int) (h0 : 0 ≤ x) (h1 : x ≤ 15) : and_0x0F x = x := by
  unfold and_0x0F
  exact Int.emod_eq_of_lt h0 (by omega)

/-- The calls of the cleanup block: `artnet_stop` if the node was running, then
`artnet_destroy`; nothing when no node was held. -/
lemma cleanup_existing_calls (s : ArtNetController) :
    (cleanup_existing s).2 =
      match s.node with
      | none => []
      | some n =>
        (if s.running then [LibCall.artnet_stop n] else []) ++ [LibCall.artnet_destroy n] := by
  unfold cleanup_existing stop
  cases hn : s.node with
  | none => rfl
  | some n => cases hr : s.running <;> simp

/-- The state after the cleanup block: no node; the running flag is cleared when a node was
held and is the old flag otherwise; the frame and universe are kept. -/
lemma cleanup_existing_state (s : ArtNetController) :
    (cleanup_existing s).1 =
      { s with node := none, running := if s.node = none then s.running else false } := by
  unfold cleanup_existing stop
  cases hn : s.node with
  | none => rcases s with ⟨nd, rn, cu, d⟩; simp_all
  | some n =>
    rcases s with ⟨nd, rn, cu, d⟩
    cases rn <;> simp_all

/-- The cleanup block never calls a setter, so it does not hide the subnet handed over. -/
lemma subnet_handed_cleanup (s : ArtNetController) (rest : List LibCall) :
    subnet_handed ((cleanup_existing s).2 ++ rest) = subnet_handed rest := by
  rw [cleanup_existing_calls]
  cases hn : s.node with
  | none => rfl
  | some n => cases hr : s.running <;> simp [subnet_handed]

/-- The cleanup block never calls a setter, so it does not hide the port address handed over. -/
lemma port_addr_handed_cleanup (s : ArtNetController) (rest : List LibCall) :
    port_addr_handed ((cleanup_existing s).2 ++ rest) = port_addr_handed rest := by
  rw [cleanup_existing_calls]
  cases hn : s.node with
  | none => rfl
  | some n => cases hr : s.running <;> simp [port_addr_handed]

/-- The whole of `configure` when the library accepts every call. -/
lemma configure_of_success (s : ArtNetController) (bind_address : String)
    (port net subnet universe_ : Int) (broadcast_address : String) (lib : ConfigureLib) (m : Nat)
    (hnew : lib.new_node = some m) (hs : lib.set_subnet_addr = 0) (hp : lib.set_port_addr = 0) :
    configure s bind_address port net subnet universe_ broadcast_address lib =
      ⟨true,
       { node := some m, running := false, current_universe := to_uint8 universe_,
         dmx_data := s.dmx_data },
       (cleanup_existing s).2 ++
         [LibCall.artnet_new bind_address 0,
          LibCall.artnet_set_subnet_addr m (to_uint8 subnet),
          LibCall.artnet_set_port_addr m 0 artnet_port_dir_t.ARTNET_OUTPUT_PORT
            (to_uint8 (and_0x0F universe_))],
       []⟩ := by
  unfold configure
  simp [hnew, hs, hp, cleanup_existing_state]

end ArtNetController

namespace ArtNetController

/-! ## C2: what `send_dmx` hands to the library after `set_dmx_data` -/

/-- C2, refuted as stated: on a configured and started controller, after
`set_dmx_data(18, [255, 0, 128])` succeeds, `send_dmx` hands the library the three bytes with
length 3; it is not the padded frame `[255, 0, 128, 0]` of length 4. -/
theorem send_dmx_odd_frame_not_padded :
    (set_dmx_data ⟨some 1, true, 18, []⟩ 18 [255, 0, 128]).value = true ∧
    (send_dmx (set_dmx_data ⟨some 1, true, 18, []⟩ 18 [255, 0, 128]).state 0).calls =
      [LibCall.artnet_send_dmx 1 0 3 [255, 0, 128]] ∧
    spec_padded [255, 0, 128] = [255, 0, 128, 0] ∧
    (send_dmx (set_dmx_data ⟨some 1, true, 18, []⟩ 18 [255, 0, 128]).state 0).calls ≠
      [LibCall.artnet_send_dmx 1 0 ((spec_padded [255, 0, 128]).length : Int)
        (spec_padded [255, 0, 128])] := by
  decide

/-- C2, amended: for every byte sequence of length 1..512, `set_dmx_data` succeeds and stores
it, and a following `send_dmx` on a configured and started controller makes exactly one library
call, `artnet_send_dmx` on port 0, with the input bytes themselves and the input length (no
padding byte is added, whatever the parity); it returns true exactly when the library reports
0, and leaves the state as `set_dmx_data` left it. -/
theorem send_dmx_hands_frame_unpadded (s : ArtNetController) (n : Nat) (universe_ : Int)
    (data : List Nat) (send_result : Int)
    (hlen : 1 ≤ data.length ∧ data.length ≤ 512)
    (hnode : s.node = some n) (hrun : s.running = true) :
    (set_dmx_data s universe_ data).value = true ∧
    (set_dmx_data s universe_ data).state.dmx_data = data ∧
    (send_dmx (set_dmx_data s universe_ data).state send_result).calls =
      [LibCall.artnet_send_dmx n 0 (data.length : Int) data] ∧
    (send_dmx (set_dmx_data s universe_ data).state send_result).value =
      decide (send_result = 0) ∧
    (send_dmx (set_dmx_data s universe_ data).state send_result).state =
      (set_dmx_data s universe_ data).state := by
  obtain ⟨h1, h512⟩ := hlen
  have hgt : ¬ data.length > 512 := by omega
  have hne : ¬ data.length = 0 := by omega
  have hconv := to_int16_of_lt data.length (by omega)
  have hset : set_dmx_data s universe_ data =
      ⟨true, { s with dmx_data := data, current_universe := to_uint8 universe_ }, [], []⟩ := by
    unfold set_dmx_data
    simp [hgt, hne]
  rw [hset]
  unfold send_dmx
  by_cases hres : send_result = 0
  · simp [hnode, hrun, hne, hconv, hres]
  · simp [hnode, hrun, hne, hconv, hres]

/-- C2 amended, at the frame of the specification's example. -/
theorem send_dmx_hands_frame_unpadded_witness :
    (set_dmx_data ⟨some 1, true, 18, []⟩ 18 [255, 0, 128]).value = true ∧
    (set_dmx_data ⟨some 1, true, 18, []⟩ 18 [255, 0, 128]).state.dmx_data = [255, 0, 128] ∧
    (send_dmx (set_dmx_data ⟨some 1, true, 18, []⟩ 18 [255, 0, 128]).state 0).calls =
      [LibCall.artnet_send_dmx 1 0 (([255, 0, 128] : List Nat).length : Int) [255, 0, 128]] ∧
    (send_dmx (set_dmx_data ⟨some 1, true, 18, []⟩ 18 [255, 0, 128]).state 0).value =
      decide ((0 : Int) = 0) ∧
    (send_dmx (set_dmx_data ⟨some 1, true, 18, []⟩ 18 [255, 0, 128]).state 0).state =
      (set_dmx_data ⟨some 1, true, 18, []⟩ 18 [255, 0, 128]).state :=
  send_dmx_hands_frame_unpadded ⟨some 1, true, 18, []⟩ 1 18 [255, 0, 128] 0
    (by decide) rfl rfl

/-! ## C3: out-of-range addresses -/

/-- C3, refuted as stated: with net 200, subnet 16 and universe 16, all out of range, and a
library that accepts every call, `configure` on a running controller returns true; the prior
node is stopped and destroyed, the running flag is cleared, and the universe is handed to the
library truncated to its low four bits (0). -/
theorem configure_accepts_out_of_range :
    ((200 : Int) > 127 ∧ (16 : Int) > 15) ∧
    (configure ⟨some 1, true, 0, [1]⟩ "0.0.0.0" 6454 200 16 16 "255.255.255.255"
      ⟨some 2, 0, 0⟩).value = true ∧
    (configure ⟨some 1, true, 0, [1]⟩ "0.0.0.0" 6454 200 16 16 "255.255.255.255"
      ⟨some 2, 0, 0⟩).state = ⟨some 2, false, 16, [1]⟩ ∧
    (configure ⟨some 1, true, 0, [1]⟩ "0.0.0.0" 6454 200 16 16 "255.255.255.255"
      ⟨some 2, 0, 0⟩).calls =
      [LibCall.artnet_stop 1, LibCall.artnet_destroy 1, LibCall.artnet_new "0.0.0.0" 0,
       LibCall.artnet_set_subnet_addr 2 16,
       LibCall.artnet_set_port_addr 2 0 artnet_port_dir_t.ARTNET_OUTPUT_PORT 0] := by
  decide

end ArtNetController

namespace ArtNetController

/-- C3, amended: `configure` makes no range check on net, subnet or universe.  For every
controller state and every argument list, in range or not, it returns true exactly when the
library creates the node and accepts both setters; its calls start with the cleanup of the
prior node (stopped first when running, then destroyed) followed by `artnet_new`; the subnet
reaches `artnet_set_subnet_addr` reduced modulo 256 and the universe reaches
`artnet_set_port_addr` reduced to its low four bits; net is not looked at. -/
theorem configure_no_range_check (s : ArtNetController) (bind_address : String)
    (port net subnet universe_ : Int) (broadcast_address : String) (lib : ConfigureLib) :
    ((configure s bind_address port net subnet universe_ broadcast_address lib).value = true ↔
      (lib.new_node ≠ none ∧ lib.set_subnet_addr = 0 ∧ lib.set_port_addr = 0)) ∧
    (∃ rest, (configure s bind_address port net subnet universe_ broadcast_address lib).calls =
      (match s.node with
       | none => []
       | some n =>
         (if s.running then [LibCall.artnet_stop n] else []) ++ [LibCall.artnet_destroy n]) ++
      LibCall.artnet_new bind_address 0 :: rest) ∧
    (lib.new_node ≠ none →
      subnet_handed (configure s bind_address port net subnet universe_ broadcast_address
        lib).calls = some (subnet % 256).toNat) ∧
    (lib.new_node ≠ none → lib.set_subnet_addr = 0 →
      port_addr_handed (configure s bind_address port net subnet universe_ broadcast_address
        lib).calls = some (universe_ % 16).toNat) := by
  have hmask : to_uint8 (and_0x0F universe_) = (universe_ % 16).toNat := by
    unfold to_uint8 and_0x0F
    congr 1
    omega
  have hcast : to_uint8 subnet = (subnet % 256).toNat := rfl
  rw [← cleanup_existing_calls]
  unfold configure
  cases hnew : lib.new_node with
  | none => simp
  | some m =>
    by_cases hs : lib.set_subnet_addr = 0
    · by_cases hp : lib.set_port_addr = 0
      · simp [hs, hp, subnet_handed_cleanup, port_addr_handed_cleanup, subnet_handed,
          port_addr_handed, hmask, hcast]
      · simp [hs, hp, subnet_handed_cleanup, port_addr_handed_cleanup, subnet_handed,
          port_addr_handed, hmask, hcast]
    · simp [hs, subnet_handed_cleanup, subnet_handed, hcast]

/-! ## C4: addresses in range -/

/-- C4: for every net in 0..127, subnet in 0..15 and universe in 0..15, when the library
creates the node and accepts both setters, `configure` returns true, the subnet is handed to
the library unchanged, the port address handed over equals the universe, and the two combine
to the port address `(subnet<<4)|universe`. -/
theorem configure_in_range (s : ArtNetController) (bind_address : String)
    (port net subnet universe_ : Int) (broadcast_address : String) (lib : ConfigureLib) (m : Nat)
    (hnet : 0 ≤ net ∧ net ≤ 127) (hsub : 0 ≤ subnet ∧ subnet ≤ 15)
    (huni : 0 ≤ universe_ ∧ universe_ ≤ 15)
    (hnew : lib.new_node = some m) (hs : lib.set_subnet_addr = 0)
    (hp : lib.set_port_addr = 0) :
    (configure s bind_address port net subnet universe_ broadcast_address lib).value = true ∧
    (∃ sn pa,
      subnet_handed (configure s bind_address port net subnet universe_ broadcast_address
        lib).calls = some sn ∧
      port_addr_handed (configure s bind_address port net subnet universe_ broadcast_address
        lib).calls = some pa ∧
      (sn : Int) = subnet ∧ (pa : Int) = universe_ ∧
      spec_port_address sn pa = spec_port_address subnet.toNat universe_.toNat ∧
      (spec_port_address sn pa : Int) = subnet * 16 + universe_) := by
  rw [configure_of_success s bind_address port net subnet universe_ broadcast_address lib m
    hnew hs hp]
  obtain ⟨hs0, hs1⟩ := hsub
  obtain ⟨hu0, hu1⟩ := huni
  have e1 : to_uint8 subnet = subnet.toNat := to_uint8_of_range subnet hs0 (by omega)
  have e2 : to_uint8 (and_0x0F universe_) = universe_.toNat := by
    rw [and_0x0F_of_range universe_ hu0 hu1]
    exact to_uint8_of_range universe_ hu0 (by omega)
  refine ⟨rfl, subnet.toNat, universe_.toNat, ?_, ?_, Int.toNat_of_nonneg hs0,
    Int.toNat_of_nonneg hu0, rfl, ?_⟩
  · simp [subnet_handed_cleanup, subnet_handed, e1]
  · simp [port_addr_handed_cleanup, port_addr_handed, e2]
  · obtain ⟨a, rfl⟩ := Int.eq_ofNat_of_zero_le hs0
    obtain ⟨b, rfl⟩ := Int.eq_ofNat_of_zero_le hu0
    have ha : a ≤ 15 := by omega
    have hb : b ≤ 15 := by omega
    simp only [Int.toNat_ofNat, spec_port_address]
    interval_cases a <;> interval_cases b <;> rfl

/-- C4 at the addresses of the specification's example: subnet 1 and universe 2 give the port
address `0x12`. -/
theorem configure_in_range_witness :
    (configure construct "0.0.0.0" 6454 0 1 2 "10.0.0.255" ⟨some 1, 0, 0⟩).value = true ∧
    (∃ sn pa,
      subnet_handed (configure construct "0.0.0.0" 6454 0 1 2 "10.0.0.255"
        ⟨some 1, 0, 0⟩).calls = some sn ∧
      port_addr_handed (configure construct "0.0.0.0" 6454 0 1 2 "10.0.0.255"
        ⟨some 1, 0, 0⟩).calls = some pa ∧
      (sn : Int) = 1 ∧ (pa : Int) = 2 ∧
      spec_port_address sn pa = spec_port_address (1 : Int).toNat (2 : Int).toNat ∧
      (spec_port_address sn pa : Int) = 1 * 16 + 2) :=
  configure_in_range construct "0.0.0.0" 6454 0 1 2 "10.0.0.255" ⟨some 1, 0, 0⟩ 1
    (by decide) (by decide) (by decide) rfl rfl rfl

end ArtNetController

namespace ArtNetController

/-! ## C8: the controller is not running after `configure` -/

/-- C8: for every controller state and every argument list, after `configure` returns
`is_running()` is false; a running prior node is stopped and then destroyed before anything
else; when `configure` returns true the node the library created is held and the running flag
is clear; when it returns false (node creation or one of the two setters failed) no node is
held, and a following `start` and `send_dmx` both fail with the not-configured diagnostic,
without a library call and without changing the state. -/
theorem configure_leaves_not_running (s : ArtNetController) (bind_address : String)
    (port net subnet universe_ : Int) (broadcast_address : String) (lib : ConfigureLib)
    (start_result send_result : Int) :
    is_running (configure s bind_address port net subnet universe_ broadcast_address
      lib).state = false ∧
    (∀ n, s.node = some n → s.running = true →
      ∃ rest, (configure s bind_address port net subnet universe_ broadcast_address lib).calls =
        LibCall.artnet_stop n :: LibCall.artnet_destroy n :: rest) ∧
    ((configure s bind_address port net subnet universe_ broadcast_address lib).value = true →
      (configure s bind_address port net subnet universe_ broadcast_address lib).state.node ≠
        none ∧
      (configure s bind_address port net subnet universe_ broadcast_address lib).state.node =
        lib.new_node ∧
      (configure s bind_address port net subnet universe_ broadcast_address
        lib).state.running = false) ∧
    ((configure s bind_address port net subnet universe_ broadcast_address lib).value = false →
      (lib.new_node = none ∨ lib.set_subnet_addr ≠ 0 ∨ lib.set_port_addr ≠ 0) ∧
      (configure s bind_address port net subnet universe_ broadcast_address lib).state.node =
        none ∧
      start (configure s bind_address port net subnet universe_ broadcast_address lib).state
          start_result =
        ⟨false, (configure s bind_address port net subnet universe_ broadcast_address
          lib).state, [], [Diag.cannot_start_not_configured]⟩ ∧
      send_dmx (configure s bind_address port net subnet universe_ broadcast_address lib).state
          send_result =
        ⟨false, (configure s bind_address port net subnet universe_ broadcast_address
          lib).state, [], [Diag.cannot_send_not_configured]⟩) := by
  refine ⟨?_, ?_, ?_, ?_⟩
  · unfold configure is_running
    cases hnew : lib.new_node with
    | none => simp
    | some m =>
      by_cases hs : lib.set_subnet_addr = 0
      · by_cases hp : lib.set_port_addr = 0
        · simp [hs, hp]
        · simp [hs, hp]
      · simp [hs]
  · intro n hn hr
    have hc : (cleanup_existing s).2 = [LibCall.artnet_stop n, LibCall.artnet_destroy n] := by
      rw [cleanup_existing_calls]
      simp [hn, hr]
    unfold configure
    cases hnew : lib.new_node with
    | none => simp [hc]
    | some m =>
      by_cases hs : lib.set_subnet_addr = 0
      · by_cases hp : lib.set_port_addr = 0
        · simp [hs, hp, hc]
        · simp [hs, hp, hc]
      · simp [hs, hc]
  · unfold configure
    cases hnew : lib.new_node with
    | none => simp
    | some m =>
      by_cases hs : lib.set_subnet_addr = 0
      · by_cases hp : lib.set_port_addr = 0
        · simp [hs, hp]
        · simp [hs, hp]
      · simp [hs]
  · unfold configure
    cases hnew : lib.new_node with
    | none => simp [start, send_dmx]
    | some m =>
      by_cases hs : lib.set_subnet_addr = 0
      · by_cases hp : lib.set_port_addr = 0
        · simp [hs, hp]
        · simp [hs, hp, start, send_dmx]
      · simp [hs, start, send_dmx]

/-! ## C9: the arguments `configure` does not use -/

/-- C9: the port, net and broadcast_address arguments of `configure` are not applied: for every
controller state, every library outcome and every two argument lists that agree on
bind_address, subnet and universe, `configure` makes the same library calls, returns the same
value, prints the same diagnostics and produces the same state. -/
theorem configure_ignores_port_net_broadcast (s : ArtNetController) (bind_address : String)
    (subnet universe_ : Int) (lib : ConfigureLib)
    (port net : Int) (broadcast_address : String)
    (port2 net2 : Int) (broadcast_address2 : String) :
    configure s bind_address port net subnet universe_ broadcast_address lib =
      configure s bind_address port2 net2 subnet universe_ broadcast_address2 lib := by
  rfl

end ArtNetController

namespace ArtNetController

/-! ## C10: the invariant of the reachable states -/

/-- The invariant: the running flag is set only while a node is held, and the stored frame
has at most 512 bytes. -/
lemma invariant_step (s : ArtNetController) (op : Op)
    (h : (s.running = true → s.node ≠ none) ∧ s.dmx_data.length ≤ 512) :
    ((op.apply s).running = true → (op.apply s).node ≠ none) ∧
      (op.apply s).dmx_data.length ≤ 512 := by
  obtain ⟨hrun, hlen⟩ := h
  rcases s with ⟨nd, rn, cu, d⟩
  cases op with
  | configure b p n sb u bc lib =>
    simp only [Op.apply, configure, cleanup_existing_state]
    cases hnew : lib.new_node with
    | none =>
      cases nd with
      | none => simp_all
      | some k => simp_all
    | some m =>
      by_cases hs : lib.set_subnet_addr = 0
      · by_cases hp : lib.set_port_addr = 0
        · simp_all
        · cases nd with
          | none => simp_all
          | some k => simp_all
      · cases nd with
        | none => simp_all
        | some k => simp_all
  | start r =>
    simp only [Op.apply, start]
    cases nd with
    | none => simp_all
    | some k =>
      cases rn with
      | true => simp_all
      | false =>
        by_cases hr : r = 0
        · simp_all
        · simp_all
  | stop =>
    simp only [Op.apply, stop]
    cases nd with
    | none => simp_all
    | some k => cases rn <;> simp_all
  | set_dmx_data u data =>
    simp only [Op.apply, set_dmx_data]
    by_cases h1 : data.length > 512
    · simp_all
    · by_cases h2 : data.length = 0
      · simp_all
      · simp only [h1, h2, if_false]
        exact ⟨hrun, by omega⟩
  | send_dmx r =>
    simp only [Op.apply, send_dmx]
    cases nd with
    | none => simp_all
    | some k =>
      cases rn with
      | false => simp_all
      | true =>
        by_cases h2 : d.length = 0
        · simp_all
        · by_cases hr : r = 0
          · simp_all
          · simp_all

/-- The invariant holds after every sequence of operations started from a state where it
holds. -/
lemma invariant_run (ops : List Op) (s : ArtNetController)
    (h : (s.running = true → s.node ≠ none) ∧ s.dmx_data.length ≤ 512) :
    ((run s ops).running = true → (run s ops).node ≠ none) ∧
      (run s ops).dmx_data.length ≤ 512 := by
  induction ops generalizing s with
  | nil => exact h
  | cons op rest ih =>
    have hstep := ih (op.apply s) (invariant_step s op h)
    simpa [run] using hstep

/-- C10: every state reached from the constructed controller by any sequence of `configure`,
`start`, `stop`, `set_dmx_data` and `send_dmx`, with arbitrary library outcomes, has the
running flag set only while a node is held, so `is_running()` equals the running flag, and a
stored frame of at most 512 bytes; hence every library call `send_dmx` makes from such a state
passes the stored frame with a length in 1..512 that the conversion to a 16-bit signed integer
leaves exact. -/
theorem reachable_invariant (ops : List Op) (send_result : Int) :
    ((run construct ops).running = true → (run construct ops).node ≠ none) ∧
    is_running (run construct ops) = (run construct ops).running ∧
    (run construct ops).dmx_data.length ≤ 512 ∧
    (∀ c ∈ (send_dmx (run construct ops) send_result).calls,
      ∃ n, (run construct ops).node = some n ∧
        c = LibCall.artnet_send_dmx n 0 ((run construct ops).dmx_data.length : Int)
          (run construct ops).dmx_data ∧
        1 ≤ (run construct ops).dmx_data.length ∧
        (run construct ops).dmx_data.length ≤ 512 ∧
        to_int16 ((run construct ops).dmx_data.length : Int) =
          ((run construct ops).dmx_data.length : Int)) := by
  have hinit : (construct.running = true → construct.node ≠ none) ∧
      construct.dmx_data.length ≤ 512 := by
    simp [construct]
  obtain ⟨hrun, hlen⟩ := invariant_run ops construct hinit
  generalize run construct ops = s at hrun hlen
  have hconv := to_int16_of_lt s.dmx_data.length (by omega)
  refine ⟨hrun, ?_, hlen, ?_⟩
  · unfold is_running
    cases hr : s.running with
    | false => simp
    | true =>
      have := hrun hr
      cases hn : s.node with
      | none => exact absurd hn this
      | some k => simp
  · intro c hc
    unfold send_dmx at hc
    cases hn : s.node with
    | none => simp [hn] at hc
    | some k =>
      cases hr : s.running with
      | false => simp [hn, hr] at hc
      | true =>
        by_cases h0 : s.dmx_data.length = 0
        · simp [hn, hr, h0] at hc
        · have hc2 : c = LibCall.artnet_send_dmx k 0 (s.dmx_data.length : Int) s.dmx_data := by
            by_cases hres : send_result = 0
            · simpa [hn, hr, h0, hres, hconv] using hc
            · simpa [hn, hr, h0, hres, hconv] using hc
          exact ⟨k, rfl, hc2, by omega, hlen, hconv⟩

end ArtNetController
